import Mathlib

/-!
Verification of the Flint & Flours regional commerce and cart logic.

The shopping-cart state management is embedded from
`frontend/src/App.js` (ShoppingProvider: addToCart, removeFromCart,
updateCartQuantity, clearCart, getCartTotal).  The backend commerce
engine and auth session manager (server.py) are not part of the
source tree; those operations are modelled from the specification,
each such definition is marked `Modelled from the spec:`.
-/

/-- Product record. Fields follow the data model: `id`, `name`,
`category`, `base_price` (reference currency INR), `subscription_eligible`,
`in_stock`. -/
structure Product where
  id : String
  name : String
  category : String
  base_price : ℚ
  subscription_eligible : Bool
  in_stock : Bool
deriving DecidableEq

/-- A cart line entry as kept by the frontend ShoppingProvider: the JS
object `{ product_id, quantity, subscription_type, product }`. -/
structure CartItem where
  product_id : String
  quantity : ℤ
  subscription_type : String
  product : Product
deriving DecidableEq

/-- The merge-key test used by `addToCart` / `removeFromCart` /
`updateCartQuantity` in App.js:
`item.product_id === productId && item.subscription_type === subscriptionType`. -/
def matchesKey (productId subscriptionType : String) (it : CartItem) : Bool :=
  it.product_id == productId && it.subscription_type == subscriptionType

/-- Embedding of `addToCart` (App.js lines 135-156): if a line with the
same `(product_id, subscription_type)` exists, bump its quantity;
otherwise append a fresh line. -/
def addToCart (cart : List CartItem) (product : Product) (quantity : ℤ)
    (subscriptionType : String) : List CartItem :=
  match cart.find? (matchesKey product.id subscriptionType) with
  | some _ =>
      cart.map (fun it =>
        if matchesKey product.id subscriptionType it then
          { it with quantity := it.quantity + quantity }
        else it)
  | none =>
      cart ++ [{ product_id := product.id, quantity := quantity,
                 subscription_type := subscriptionType, product := product }]

/-- Embedding of `removeFromCart` (App.js lines 158-162): filter out the
line(s) with the given key. -/
def removeFromCart (cart : List CartItem) (productId subscriptionType : String) :
    List CartItem :=
  cart.filter (fun it => !(matchesKey productId subscriptionType it))

/-- Embedding of `updateCartQuantity` (App.js lines 164-174): non-positive
quantity removes the line, positive quantity overwrites it. -/
def updateCartQuantity (cart : List CartItem) (productId subscriptionType : String)
    (quantity : ℤ) : List CartItem :=
  if quantity ≤ 0 then
    removeFromCart cart productId subscriptionType
  else
    cart.map (fun it =>
      if matchesKey productId subscriptionType it then
        { it with quantity := quantity }
      else it)

/-- Embedding of `clearCart` (App.js lines 176-178). -/
def clearCart (_cart : List CartItem) : List CartItem := []

/-- Embedding of `getCartTotal` (App.js lines 180-182):
`cart.reduce((total, item) => total + item.quantity, 0)`. -/
def getCartTotal (cart : List CartItem) : ℤ :=
  cart.foldl (fun total it => total + it.quantity) 0

/-- A sample product used by concrete witnesses. -/
def sampleProduct : Product :=
  { id := "p1", name := "Sourdough", category := "breads",
    base_price := 100, subscription_eligible := true, in_stock := true }

/-- A second sample product used by concrete witnesses. -/
def sampleProduct2 : Product :=
  { id := "p2", name := "Cookie Box", category := "cookies",
    base_price := 250, subscription_eligible := true, in_stock := true }

theorem getCartTotal_foldl_eq_sum (cart : List CartItem) (acc : ℤ) :
    cart.foldl (fun total it => total + it.quantity) acc
      = acc + (cart.map (fun it => it.quantity)).sum := by
  induction cart generalizing acc with
  | nil => simp
  | cons hd tl ih =>
      simp [List.foldl_cons, ih (acc + hd.quantity)]
      ring

/-- C10: `getCartTotal` returns the sum of the quantity fields over all
cart lines (a unit count, not money): it is `0` on the empty cart, and it
depends only on the quantities (hence on no product price and on no
region, which it does not even receive). -/
theorem getCartTotal_spec :
    (∀ cart : List CartItem,
        getCartTotal cart = (cart.map (fun it => it.quantity)).sum)
    ∧ getCartTotal [] = 0
    ∧ (∀ cart₁ cart₂ : List CartItem,
        cart₁.map (fun it => it.quantity) = cart₂.map (fun it => it.quantity) →
        getCartTotal cart₁ = getCartTotal cart₂) := by
  refine ⟨fun cart => ?_, ?_, fun cart₁ cart₂ h => ?_⟩
  · simpa using getCartTotal_foldl_eq_sum cart 0
  · rfl
  · show cart₁.foldl (fun total it => total + it.quantity) 0
        = cart₂.foldl (fun total it => total + it.quantity) 0
    rw [getCartTotal_foldl_eq_sum, getCartTotal_foldl_eq_sum, h]

/-- The Boolean key test agrees with the propositional key equation. -/
theorem matchesKey_iff (pid s : String) (it : CartItem) :
    matchesKey pid s it = true ↔ (it.product_id = pid ∧ it.subscription_type = s) := by
  simp [matchesKey]

/-- C3: if the cart already holds a line keyed `(P.id, s)`, `addToCart`
bumps that line's quantity by `q` in place (no new line, same length);
if no line has that key — in particular when the same product is present
only under other subscription types — `addToCart` appends one fresh line
of quantity `q`. -/
theorem addToCart_spec (cart : List CartItem) (P : Product) (q : ℤ) (s : String) :
    ((∃ it ∈ cart, it.product_id = P.id ∧ it.subscription_type = s) →
      addToCart cart P q s
        = cart.map (fun it =>
            if matchesKey P.id s it then { it with quantity := it.quantity + q } else it)
      ∧ (addToCart cart P q s).length = cart.length)
    ∧ ((∀ it ∈ cart, ¬(it.product_id = P.id ∧ it.subscription_type = s)) →
      addToCart cart P q s
        = cart ++ [{ product_id := P.id, quantity := q,
                     subscription_type := s, product := P }]) := by
  constructor
  · intro hex
    have hsome : (cart.find? (matchesKey P.id s)).isSome := by
      rw [List.find?_isSome]
      obtain ⟨it, hmem, hkey⟩ := hex
      exact ⟨it, hmem, (matchesKey_iff _ _ _).mpr hkey⟩
    obtain ⟨it0, hf⟩ := Option.isSome_iff_exists.mp hsome
    refine ⟨?_, ?_⟩ <;> simp [addToCart, hf]
  · intro hall
    have hnone : cart.find? (matchesKey P.id s) = none := by
      rw [List.find?_eq_none]
      intro x hx hk
      exact hall x hx ((matchesKey_iff _ _ _).mp hk)
    simp [addToCart, hnone]

/-- Witness for C3: merging two "one-time" lines for the same product
gives one line of quantity 5; adding under a different subscription type
appends a second distinct line. -/
theorem addToCart_spec_witness :
    addToCart [⟨"p1", 2, "one-time", sampleProduct⟩] sampleProduct 3 "one-time"
      = [⟨"p1", 5, "one-time", sampleProduct⟩]
    ∧ addToCart [⟨"p1", 2, "weekly", sampleProduct⟩] sampleProduct 3 "one-time"
      = [⟨"p1", 2, "weekly", sampleProduct⟩, ⟨"p1", 3, "one-time", sampleProduct⟩] :=
  ⟨(((addToCart_spec [⟨"p1", 2, "one-time", sampleProduct⟩]
        sampleProduct 3 "one-time").1 (by decide)).1).trans (by decide),
   (((addToCart_spec [⟨"p1", 2, "weekly", sampleProduct⟩]
        sampleProduct 3 "one-time").2 (by decide))).trans (by decide)⟩

/-- C4: a non-positive quantity makes `updateCartQuantity` behave exactly
as `removeFromCart` on the same key; a positive quantity overwrites the
keyed line's quantity with `q` and leaves every other line unchanged. -/
theorem updateCartQuantity_spec (cart : List CartItem) (pid s : String) (q : ℤ) :
    (q ≤ 0 → updateCartQuantity cart pid s q = removeFromCart cart pid s)
    ∧ (0 < q → updateCartQuantity cart pid s q
        = cart.map (fun it =>
            if matchesKey pid s it then { it with quantity := q } else it)) := by
  constructor
  · intro h
    simp [updateCartQuantity, if_pos h]
  · intro h
    simp [updateCartQuantity, not_le.mpr h]

/-- Witness for C4: quantity 0 deletes the keyed line just as
`removeFromCart` does; quantity 7 overwrites the keyed line only. -/
theorem updateCartQuantity_spec_witness :
    updateCartQuantity [⟨"p1", 2, "one-time", sampleProduct⟩,
                        ⟨"p2", 4, "weekly", sampleProduct2⟩] "p1" "one-time" 0
      = [⟨"p2", 4, "weekly", sampleProduct2⟩]
    ∧ updateCartQuantity [⟨"p1", 2, "one-time", sampleProduct⟩,
                          ⟨"p2", 4, "weekly", sampleProduct2⟩] "p1" "one-time" 7
      = [⟨"p1", 7, "one-time", sampleProduct⟩, ⟨"p2", 4, "weekly", sampleProduct2⟩] :=
  ⟨(((updateCartQuantity_spec [⟨"p1", 2, "one-time", sampleProduct⟩,
        ⟨"p2", 4, "weekly", sampleProduct2⟩] "p1" "one-time" 0).1
        (by decide)).trans (by decide)),
   (((updateCartQuantity_spec [⟨"p1", 2, "one-time", sampleProduct⟩,
        ⟨"p2", 4, "weekly", sampleProduct2⟩] "p1" "one-time" 7).2
        (by decide)).trans (by decide))⟩

/-- Witness for C10: a concrete two-line cart summing to 5, and two
concrete carts with equal quantities but different products agreeing. -/
theorem getCartTotal_spec_witness :
    getCartTotal [⟨"p1", 2, "one-time", sampleProduct⟩,
                  ⟨"p2", 3, "weekly", sampleProduct2⟩]
      = (([⟨"p1", 2, "one-time", sampleProduct⟩,
           ⟨"p2", 3, "weekly", sampleProduct2⟩] : List CartItem).map
          (fun it => it.quantity)).sum
    ∧ getCartTotal [⟨"p1", 4, "one-time", sampleProduct⟩]
        = getCartTotal [⟨"p2", 4, "monthly", sampleProduct2⟩] :=
  ⟨getCartTotal_spec.1 _, getCartTotal_spec.2.2 _ _ (by decide)⟩

/-- Two cart lines collide when they share the merge key
`(product_id, subscription_type)`. -/
def sameKey (a b : CartItem) : Prop :=
  a.product_id = b.product_id ∧ a.subscription_type = b.subscription_type

instance (a b : CartItem) : Decidable (sameKey a b) := by
  unfold sameKey
  infer_instance

/-- At most one line per `(product_id, subscription_type)` pair. -/
def distinctKeys (cart : List CartItem) : Prop :=
  cart.Pairwise (fun a b => ¬ sameKey a b)

/-- The cart invariant: distinct merge keys and positive quantities. -/
def wfCart (cart : List CartItem) : Prop :=
  distinctKeys cart ∧ ∀ it ∈ cart, 0 < it.quantity

/-- One user-driven cart operation of the ShoppingProvider. -/
inductive CartOp where
  | add (product : Product) (quantity : ℤ) (subscriptionType : String)
  | remove (productId subscriptionType : String)
  | update (productId subscriptionType : String) (quantity : ℤ)
  | clear
deriving DecidableEq

/-- Dispatch one operation to the corresponding App.js handler. -/
def applyOp (cart : List CartItem) (op : CartOp) : List CartItem :=
  match op with
  | .add p q s => addToCart cart p q s
  | .remove pid s => removeFromCart cart pid s
  | .update pid s q => updateCartQuantity cart pid s q
  | .clear => clearCart cart

/-- `add` operations carry a positive quantity argument (the UI only
calls `addToCart` with positive quantities). -/
def posAddB (op : CartOp) : Bool :=
  match op with
  | .add _ q _ => decide (0 < q)
  | _ => true

theorem distinctKeys_map_quantity (cart : List CartItem) (f : CartItem → CartItem)
    (hf : ∀ it, (f it).product_id = it.product_id
        ∧ (f it).subscription_type = it.subscription_type)
    (h : distinctKeys cart) : distinctKeys (cart.map f) := by
  rw [distinctKeys, List.pairwise_map]
  refine h.imp ?_
  intro a b hab hk
  exact hab ⟨by rw [← (hf a).1, ← (hf b).1, hk.1], by rw [← (hf a).2, ← (hf b).2, hk.2]⟩

theorem distinctKeys_filter (cart : List CartItem) (p : CartItem → Bool)
    (h : distinctKeys cart) : distinctKeys (cart.filter p) :=
  List.Pairwise.sublist (List.filter_sublist cart) h

theorem wfCart_addToCart (cart : List CartItem) (P : Product) (q : ℤ) (s : String)
    (hq : 0 < q) (h : wfCart cart) : wfCart (addToCart cart P q s) := by
  unfold addToCart
  cases hf : cart.find? (matchesKey P.id s) with
  | some it0 =>
      constructor
      · exact distinctKeys_map_quantity cart
          (fun it => if matchesKey P.id s it then
              { it with quantity := it.quantity + q } else it)
          (fun it => by by_cases hkey : matchesKey P.id s it <;> simp [hkey]) h.1
      · intro x hx
        obtain ⟨it, hit, rfl⟩ := List.mem_map.mp hx
        by_cases hkey : matchesKey P.id s it
        · simp only [if_pos hkey]
          exact add_pos (h.2 it hit) hq
        · simp only [if_neg hkey]
          exact h.2 it hit
  | none =>
      have hnot : ∀ a ∈ cart, ¬ matchesKey P.id s a = true := List.find?_eq_none.mp hf
      constructor
      · rw [distinctKeys, List.pairwise_append]
        refine ⟨h.1, List.pairwise_singleton _ _, ?_⟩
        intro a ha b hb hk
        rw [List.mem_singleton] at hb
        subst hb
        exact hnot a ha ((matchesKey_iff _ _ _).mpr ⟨hk.1, hk.2⟩)
      · intro x hx
        rcases List.mem_append.mp hx with hx | hx
        · exact h.2 x hx
        · rw [List.mem_singleton] at hx
          subst hx
          exact hq

theorem wfCart_removeFromCart (cart : List CartItem) (pid s : String)
    (h : wfCart cart) : wfCart (removeFromCart cart pid s) := by
  refine ⟨distinctKeys_filter cart _ h.1, ?_⟩
  intro x hx
  exact h.2 x (List.mem_of_mem_filter hx)

theorem wfCart_updateCartQuantity (cart : List CartItem) (pid s : String) (q : ℤ)
    (h : wfCart cart) : wfCart (updateCartQuantity cart pid s q) := by
  unfold updateCartQuantity
  split
  · exact wfCart_removeFromCart cart pid s h
  · rename_i hq
    push_neg at hq
    constructor
    · exact distinctKeys_map_quantity cart
        (fun it => if matchesKey pid s it then { it with quantity := q } else it)
        (fun it => by by_cases hkey : matchesKey pid s it <;> simp [hkey]) h.1
    · intro x hx
      obtain ⟨it, hit, rfl⟩ := List.mem_map.mp hx
      by_cases hkey : matchesKey pid s it
      · simp only [if_pos hkey]
        exact hq
      · simp only [if_neg hkey]
        exact h.2 it hit

theorem wfCart_applyOp (cart : List CartItem) (op : CartOp)
    (hop : posAddB op = true) (h : wfCart cart) : wfCart (applyOp cart op) := by
  cases op with
  | add p q s =>
      exact wfCart_addToCart cart p q s (of_decide_eq_true hop) h
  | remove pid s => exact wfCart_removeFromCart cart pid s h
  | update pid s q => exact wfCart_updateCartQuantity cart pid s q h
  | clear =>
      exact ⟨List.Pairwise.nil, by intro x hx; cases hx⟩

theorem wfCart_foldl (ops : List CartOp) (cart : List CartItem)
    (hpos : ∀ op ∈ ops, posAddB op = true) (h : wfCart cart) :
    wfCart (ops.foldl applyOp cart) := by
  induction ops generalizing cart with
  | nil => exact h
  | cons op rest ih =>
      exact ih (applyOp cart op)
        (fun o ho => hpos o (List.mem_cons_of_mem _ ho))
        (wfCart_applyOp cart op (hpos op (List.mem_cons_self _ _)) h)

/-- C5: starting from the empty cart, every sequence of `addToCart`
(with positive quantity arguments), `removeFromCart`,
`updateCartQuantity` and `clearCart` operations keeps the cart with at
most one line per `(product_id, subscription_type)` key and every line
quantity a positive integer. -/
theorem cart_ops_preserve_invariant (ops : List CartOp)
    (hpos : ∀ op ∈ ops, posAddB op = true) :
    wfCart (ops.foldl applyOp []) :=
  wfCart_foldl ops [] hpos ⟨List.Pairwise.nil, by intro x hx; cases hx⟩

/-- Witness for C5: a concrete five-operation session (merge, second
subscription type, overwrite, delete) ends in a well-formed cart. -/
theorem cart_ops_preserve_invariant_witness :
    (∀ op ∈ [CartOp.add sampleProduct 2 "one-time",
             CartOp.add sampleProduct 1 "one-time",
             CartOp.add sampleProduct 1 "weekly",
             CartOp.update "p1" "weekly" 5,
             CartOp.remove "p1" "one-time"], posAddB op = true)
    ∧ wfCart (([CartOp.add sampleProduct 2 "one-time",
                CartOp.add sampleProduct 1 "one-time",
                CartOp.add sampleProduct 1 "weekly",
                CartOp.update "p1" "weekly" 5,
                CartOp.remove "p1" "one-time"]).foldl applyOp []) :=
  ⟨by decide,
   cart_ops_preserve_invariant
     [CartOp.add sampleProduct 2 "one-time",
      CartOp.add sampleProduct 1 "one-time",
      CartOp.add sampleProduct 1 "weekly",
      CartOp.update "p1" "weekly" 5,
      CartOp.remove "p1" "one-time"] (by decide)⟩

/-- Rounding to two decimal places at the presentation boundary
(half-up), as a map on exact rationals. -/
def round2 (q : ℚ) : ℚ := (⌊q * 100 + 1 / 2⌋ : ℚ) / 100

/-- Modelled from the spec: the region → tax-rate lookup table of the
Regional Commerce Engine (backend `server.py`, absent from the source
tree): 0.18 (18% GST) for India, 0.13 (13% HST) for Canada. -/
def taxRate (region : String) : Option ℚ :=
  if region = "India" then some (18 / 100)
  else if region = "Canada" then some (13 / 100)
  else none

/-- Modelled from the spec: the region → conversion-rate lookup table
(backend `server.py`, absent from the source tree): 1 INR = 0.06 CAD for
Canada, identity for India. -/
def conversionRate (region : String) : Option ℚ :=
  if region = "India" then some 1
  else if region = "Canada" then some (6 / 100)
  else none

/-- Modelled from the spec: the region → display-currency lookup table
(backend `server.py`, absent from the source tree). -/
def currencyOf (region : String) : Option String :=
  if region = "India" then some "INR"
  else if region = "Canada" then some "CAD"
  else none

/-- Error taxonomy of the Regional Commerce Engine. -/
inductive PricingError where
  | unsupportedRegion
  | productNotFound (productId : String)
  | outOfStock (productId : String)
deriving DecidableEq

/-- A product priced for a region: converted price plus display currency. -/
structure PricedProduct where
  price : ℚ
  currency : String
deriving DecidableEq

/-- A cart line item as sent to the backend cart endpoint. -/
structure CartLineItem where
  product_id : String
  quantity : ℤ
  subscription_type : String
deriving DecidableEq

/-- One priced line of a `PricedCart`. -/
structure PricedLine where
  product_id : String
  unit_price : ℚ
  quantity : ℤ
  total_price : ℚ
  currency : String
deriving DecidableEq

/-- The derived, non-persisted priced cart. -/
structure PricedCart where
  items : List PricedLine
  subtotal : ℚ
  tax : ℚ
  total : ℚ
  currency : String
  delivery_message : String
deriving DecidableEq

/-- Region-specific delivery availability, cutoff and message. -/
structure DeliveryInfo where
  available : Bool
  cutoff : String
  message : String
deriving DecidableEq

/-- The only delivery error named by the spec. -/
inductive DeliveryError where
  | unsupportedRegion
deriving DecidableEq

/-- The default delivery payload served for unknown regions. -/
def fallbackDeliveryInfo : DeliveryInfo :=
  { available := false, cutoff := "",
    message := "Delivery is currently not available in your region." }

/-- Modelled from the spec: `delivery_info` of the backend `server.py`
(absent from the source tree). Per the observed behavior recorded in
`test_result.md` ("Handles invalid regions gracefully") an unknown
region receives the default fallback payload instead of a hard error. -/
def delivery_info (region : String) : Except DeliveryError DeliveryInfo :=
  if region = "India" then
    .ok { available := true, cutoff := "6 PM",
          message := "Free delivery across India. Order by 6 PM for next-day delivery." }
  else if region = "Canada" then
    .ok { available := true, cutoff := "2 PM",
          message := "Free delivery across Canada. Order by 2 PM for next-day delivery." }
  else .ok fallbackDeliveryInfo

/-- The human-readable delivery message attached to a priced cart. -/
def deliveryMessage (region : String) : String :=
  match delivery_info region with
  | .ok d => d.message
  | .error _ => fallbackDeliveryInfo.message

/-- Modelled from the spec: `price_product` of the backend `server.py`
(absent from the source tree): convert `base_price` with the configured
rate and attach the display currency; unknown regions are rejected. -/
def price_product (p : Product) (region : String) : Except PricingError PricedProduct :=
  match conversionRate region, currencyOf region with
  | some rate, some c => .ok { price := p.base_price * rate, currency := c }
  | _, _ => .error .unsupportedRegion

/-- Catalog lookup by product id. -/
def resolveProduct (catalog : List Product) (productId : String) : Option Product :=
  catalog.find? (fun p => p.id == productId)

/-- Modelled from the spec: pricing of a single line item by the backend
cart endpoint (`server.py`, absent from the source tree): resolve the
product (`productNotFound` when missing), reject stock-outs
(`outOfStock`), then `total_price = unit_price * quantity`. -/
def priceLine (catalog : List Product) (region : String) (item : CartLineItem) :
    Except PricingError PricedLine :=
  match resolveProduct catalog item.product_id with
  | none => .error (.productNotFound item.product_id)
  | some p =>
      if p.in_stock then
        match price_product p region with
        | .error e => .error e
        | .ok pp =>
            .ok { product_id := p.id, unit_price := pp.price,
                  quantity := item.quantity,
                  total_price := pp.price * (item.quantity : ℚ),
                  currency := pp.currency }
      else .error (.outOfStock p.id)

/-- Price the line items one by one, failing on the first bad line. -/
def priceLines (catalog : List Product) (region : String) :
    List CartLineItem → Except PricingError (List PricedLine)
  | [] => .ok []
  | item :: rest =>
      match priceLine catalog region item with
      | .error e => .error e
      | .ok pl =>
          match priceLines catalog region rest with
          | .error e => .error e
          | .ok pls => .ok (pl :: pls)

/-- Modelled from the spec: `price_cart` of the backend `server.py`
(absent from the source tree): price every line, sum the subtotal,
apply the regional tax rate with two-decimal rounding at the response
boundary, and attach currency and delivery message. -/
def price_cart (items : List CartLineItem) (catalog : List Product) (region : String) :
    Except PricingError PricedCart :=
  match priceLines catalog region items with
  | .error e => .error e
  | .ok lines =>
      match taxRate region, currencyOf region with
      | some rate, some c =>
          let subtotal := (lines.map (fun l => l.total_price)).sum
          let tax := round2 (subtotal * rate)
          .ok { items := lines, subtotal := subtotal, tax := tax,
                total := subtotal + tax, currency := c,
                delivery_message := deliveryMessage region }
      | _, _ => .error .unsupportedRegion

theorem currencyOf_eq_of_taxRate (region : String) (r : ℚ)
    (h : taxRate region = some r) : ∃ c, currencyOf region = some c := by
  unfold taxRate at h
  unfold currencyOf
  split_ifs at h ⊢
  · exact ⟨"INR", rfl⟩
  · exact ⟨"CAD", rfl⟩

theorem price_cart_ok_inv (items : List CartLineItem) (catalog : List Product)
    (region : String) (rate : ℚ) (c : String) (pc : PricedCart)
    (ht : taxRate region = some rate) (hc : currencyOf region = some c)
    (hok : price_cart items catalog region = .ok pc) :
    pc.tax = round2 (pc.subtotal * rate) ∧ pc.total = pc.subtotal + pc.tax := by
  unfold price_cart at hok
  cases hpl : priceLines catalog region items with
  | error e => rw [hpl] at hok; cases hok
  | ok lines =>
      rw [hpl, ht, hc] at hok
      dsimp only at hok
      rw [Except.ok.injEq] at hok
      subst hok
      exact ⟨rfl, rfl⟩

/-- C1: whenever `price_cart` produces a priced cart, its tax is exactly
the regional rate applied to the subtotal and rounded to two decimals,
and its total is subtotal plus tax; the configured rates are 0.18 for
India and 0.13 for Canada. -/
theorem price_cart_tax_invariant :
    (∀ (items : List CartLineItem) (catalog : List Product) (region : String)
        (r : ℚ) (pc : PricedCart),
      taxRate region = some r →
      price_cart items catalog region = .ok pc →
      pc.tax = round2 (pc.subtotal * r) ∧ pc.total = pc.subtotal + pc.tax)
    ∧ taxRate "India" = some (18 / 100)
    ∧ taxRate "Canada" = some (13 / 100) := by
  refine ⟨?_, rfl, rfl⟩
  intro items catalog region r pc htax hok
  obtain ⟨c, hc⟩ := currencyOf_eq_of_taxRate region r htax
  exact price_cart_ok_inv items catalog region r c pc htax hc hok

/-- C2: pricing for Canada multiplies `base_price` by the fixed rate
0.06 with currency CAD, India is the identity conversion with currency
INR; and the spec scenario: one line of product `base_price` 100 INR,
quantity 2, region Canada prices at unit 6.00 CAD, subtotal 12.00,
tax 1.56, total 13.56. -/
theorem price_product_conversion :
    (∀ p : Product,
        price_product p "Canada"
          = .ok { price := p.base_price * (6 / 100), currency := "CAD" })
    ∧ (∀ p : Product,
        price_product p "India" = .ok { price := p.base_price, currency := "INR" })
    ∧ price_cart [{ product_id := "p1", quantity := 2, subscription_type := "one-time" }]
        [sampleProduct] "Canada"
      = .ok { items := [{ product_id := "p1", unit_price := 6, quantity := 2,
                          total_price := 12, currency := "CAD" }],
              subtotal := 12, tax := 156 / 100, total := 1356 / 100,
              currency := "CAD",
              delivery_message := deliveryMessage "Canada" } := by
  refine ⟨fun p => rfl, fun p => ?_, ?_⟩
  · have h1 : conversionRate "India" = some 1 := rfl
    have h2 : currencyOf "India" = some "INR" := rfl
    simp [price_product, h1, h2]
  · have hline : priceLines [sampleProduct] "Canada"
        [{ product_id := "p1", quantity := 2, subscription_type := "one-time" }]
        = .ok [{ product_id := "p1", unit_price := 100 * (6 / 100), quantity := 2,
                 total_price := 100 * (6 / 100) * ((2 : ℤ) : ℚ), currency := "CAD" }] := rfl
    rw [price_cart, hline]
    have ht : taxRate "Canada" = some (13 / 100) := rfl
    have hc : currencyOf "Canada" = some "CAD" := rfl
    rw [ht, hc]
    dsimp only
    rw [Except.ok.injEq]
    norm_num [round2]

/-- The priced cart produced for the witness order of two sourdoughs in
India. -/
def samplePricedCartIndia : PricedCart :=
  { items := [{ product_id := "p1", unit_price := 100, quantity := 2,
                total_price := 200, currency := "INR" }],
    subtotal := 200, tax := 36, total := 236, currency := "INR",
    delivery_message := deliveryMessage "India" }

/-- Witness for C1: two sourdoughs at 100 INR in India price to subtotal
200, tax 36 = round2(200 * 0.18), total 236, matching the invariant. -/
theorem price_cart_tax_invariant_witness :
    (taxRate "India" = some (18 / 100)
      ∧ price_cart [{ product_id := "p1", quantity := 2, subscription_type := "one-time" }]
          [sampleProduct] "India" = .ok samplePricedCartIndia)
    ∧ samplePricedCartIndia.tax
        = round2 (samplePricedCartIndia.subtotal * (18 / 100))
    ∧ samplePricedCartIndia.total
        = samplePricedCartIndia.subtotal + samplePricedCartIndia.tax := by
  have hline : priceLines [sampleProduct] "India"
      [{ product_id := "p1", quantity := 2, subscription_type := "one-time" }]
      = .ok [{ product_id := "p1", unit_price := 100 * 1, quantity := 2,
               total_price := 100 * 1 * ((2 : ℤ) : ℚ), currency := "INR" }] := rfl
  have hcart : price_cart
      [{ product_id := "p1", quantity := 2, subscription_type := "one-time" }]
      [sampleProduct] "India" = .ok samplePricedCartIndia := by
    rw [price_cart, hline,
        show taxRate "India" = some (18 / 100) from rfl,
        show currencyOf "India" = some "INR" from rfl]
    dsimp only
    rw [Except.ok.injEq, samplePricedCartIndia]
    norm_num [round2]
  exact ⟨⟨rfl, hcart⟩,
    price_cart_tax_invariant.1 _ [sampleProduct] "India" (18 / 100)
      samplePricedCartIndia rfl hcart⟩

/-- Decides whether a pricing outcome is specifically a ProductNotFound
error. -/
def isProductNotFoundError (e : Except PricingError PricedCart) : Bool :=
  match e with
  | .error (.productNotFound _) => true
  | _ => false

/-- Decides whether a pricing outcome is a successful priced cart. -/
def isOkCart (e : Except PricingError PricedCart) : Bool :=
  match e with
  | .ok _ => true
  | .error _ => false

/-- An out-of-stock product used in concrete counterexamples. -/
def outOfStockProduct : Product :=
  { id := "poos", name := "Seasonal Cake", category := "cakes",
    base_price := 500, subscription_eligible := false, in_stock := false }

/-- C6 counterexample: a cart whose first line resolves to an
out-of-stock product and whose second line references a missing product
is rejected with OutOfStock, not with ProductNotFound, so the error is
not always ProductNotFound when an unresolvable line is present. -/
theorem price_cart_notFound_counterexample :
    price_cart [{ product_id := "poos", quantity := 1, subscription_type := "one-time" },
                { product_id := "ghost", quantity := 1, subscription_type := "one-time" }]
        [outOfStockProduct] "India"
      = .error (.outOfStock "poos")
    ∧ isProductNotFoundError
        (price_cart [{ product_id := "poos", quantity := 1, subscription_type := "one-time" },
                     { product_id := "ghost", quantity := 1, subscription_type := "one-time" }]
            [outOfStockProduct] "India") = false := ⟨rfl, rfl⟩

theorem priceLines_ok_forall (catalog : List Product) (region : String)
    (items : List CartLineItem) (pls : List PricedLine)
    (h : priceLines catalog region items = .ok pls) :
    ∀ it ∈ items, ∃ pl, priceLine catalog region it = .ok pl := by
  induction items generalizing pls with
  | nil => intro it hit; cases hit
  | cons a rest ih =>
      intro it hit
      unfold priceLines at h
      cases hl : priceLine catalog region a with
      | error e => rw [hl] at h; cases h
      | ok pl =>
          rw [hl] at h
          cases hr : priceLines catalog region rest with
          | error e => rw [hr] at h; cases h
          | ok pls2 =>
              rcases List.mem_cons.mp hit with rfl | hit2
              · exact ⟨pl, hl⟩
              · exact ih pls2 hr it hit2

theorem priceLines_cons (catalog : List Product) (region : String)
    (a : CartLineItem) (rest : List CartLineItem) :
    priceLines catalog region (a :: rest)
      = match priceLine catalog region a with
        | .error e => .error e
        | .ok pl =>
            match priceLines catalog region rest with
            | .error e => .error e
            | .ok pls => .ok (pl :: pls) := rfl

theorem priceLines_append_ok (catalog : List Product) (region : String)
    (pre rest : List CartLineItem) (pls : List PricedLine)
    (h : priceLines catalog region pre = .ok pls) :
    priceLines catalog region (pre ++ rest)
      = match priceLines catalog region rest with
        | .error e => .error e
        | .ok pls2 => .ok (pls ++ pls2) := by
  induction pre generalizing pls with
  | nil =>
      have h0 : pls = [] := by
        rw [show priceLines catalog region [] = .ok [] from rfl,
            Except.ok.injEq] at h
        exact h.symm
      subst h0
      simp only [List.nil_append]
      cases priceLines catalog region rest <;> rfl
  | cons a pre2 ih =>
      rw [priceLines_cons] at h
      cases hl : priceLine catalog region a with
      | error e => rw [hl] at h; cases h
      | ok pl =>
          rw [hl] at h
          dsimp only at h
          cases hp : priceLines catalog region pre2 with
          | error e => rw [hp] at h; cases h
          | ok pls2 =>
              rw [hp, Except.ok.injEq] at h
              subst h
              rw [List.cons_append, priceLines_cons, hl]
              dsimp only
              rw [ih pls2 hp]
              cases hr : priceLines catalog region rest <;> rfl

/-- C6 (amended): a line item that does not resolve in the catalog makes
`price_cart` fail — no priced cart is produced — and so does a line item
whose product is out of stock; the error is `productNotFound` for the
unresolvable line whenever every line before it prices successfully. -/
theorem price_cart_missing_product_rejected :
    (∀ (items : List CartLineItem) (catalog : List Product) (region : String),
      (∃ it ∈ items, resolveProduct catalog it.product_id = none) →
      isOkCart (price_cart items catalog region) = false)
    ∧ (∀ (items : List CartLineItem) (catalog : List Product) (region : String),
      (∃ it ∈ items, ∃ p, resolveProduct catalog it.product_id = some p
          ∧ p.in_stock = false) →
      isOkCart (price_cart items catalog region) = false)
    ∧ (∀ (pre post : List CartLineItem) (it : CartLineItem)
        (catalog : List Product) (region : String) (pls : List PricedLine),
      priceLines catalog region pre = .ok pls →
      resolveProduct catalog it.product_id = none →
      price_cart (pre ++ it :: post) catalog region
        = .error (.productNotFound it.product_id)) := by
  have hlineNone : ∀ (catalog : List Product) (region : String) (it : CartLineItem),
      resolveProduct catalog it.product_id = none →
      priceLine catalog region it = .error (.productNotFound it.product_id) := by
    intro catalog region it hres
    unfold priceLine
    rw [hres]
  have herr : ∀ (items : List CartLineItem) (catalog : List Product) (region : String),
      (∃ it ∈ items, ∀ pl, priceLine catalog region it ≠ .ok pl) →
      isOkCart (price_cart items catalog region) = false := by
    intro items catalog region ⟨it, hit, hbad⟩
    unfold price_cart
    cases hpl : priceLines catalog region items with
    | error e => rfl
    | ok lines =>
        obtain ⟨pl, hpl2⟩ := priceLines_ok_forall catalog region items lines hpl it hit
        exact absurd hpl2 (hbad pl)
  refine ⟨?_, ?_, ?_⟩
  · intro items catalog region ⟨it, hit, hres⟩
    refine herr items catalog region ⟨it, hit, ?_⟩
    intro pl hpl
    rw [hlineNone catalog region it hres] at hpl
    cases hpl
  · intro items catalog region ⟨it, hit, p, hres, hstock⟩
    refine herr items catalog region ⟨it, hit, ?_⟩
    intro pl hpl
    unfold priceLine at hpl
    rw [hres] at hpl
    dsimp only at hpl
    rw [hstock] at hpl
    simp at hpl
  · intro pre post it catalog region pls hpre hres
    unfold price_cart
    rw [priceLines_append_ok catalog region pre (it :: post) pls hpre]
    have : priceLines catalog region (it :: post)
        = .error (.productNotFound it.product_id) := by
      unfold priceLines
      rw [hlineNone catalog region it hres]
    rw [this]

/-- Witness for C6 (amended): a missing product alone, an out-of-stock
product alone, and the missing-product error shape on a one-line cart. -/
theorem price_cart_missing_product_rejected_witness :
    isOkCart (price_cart
        [{ product_id := "ghost", quantity := 1, subscription_type := "one-time" }]
        [] "India") = false
    ∧ isOkCart (price_cart
        [{ product_id := "poos", quantity := 1, subscription_type := "one-time" }]
        [outOfStockProduct] "India") = false
    ∧ price_cart
        [{ product_id := "ghost", quantity := 1, subscription_type := "one-time" }]
        [] "India"
      = .error (.productNotFound "ghost") :=
  ⟨price_cart_missing_product_rejected.1
      [{ product_id := "ghost", quantity := 1, subscription_type := "one-time" }] [] "India"
      ⟨{ product_id := "ghost", quantity := 1, subscription_type := "one-time" },
        by decide, rfl⟩,
   price_cart_missing_product_rejected.2.1
      [{ product_id := "poos", quantity := 1, subscription_type := "one-time" }]
      [outOfStockProduct] "India"
      ⟨{ product_id := "poos", quantity := 1, subscription_type := "one-time" },
        by decide, outOfStockProduct, rfl, rfl⟩,
   price_cart_missing_product_rejected.2.2 [] []
      { product_id := "ghost", quantity := 1, subscription_type := "one-time" }
      [] "India" [] rfl rfl⟩

/-- Decides whether a delivery outcome is a hard error. -/
def isDeliveryError (e : Except DeliveryError DeliveryInfo) : Bool :=
  match e with
  | .error _ => true
  | .ok _ => false

/-- C7 counterexample: for the unknown region "USA", `delivery_info` does
not fail with `UnsupportedRegion`; it succeeds with the fallback payload,
so the claim's "fails with UnsupportedRegion" half is false. -/
theorem delivery_info_hard_error_counterexample :
    delivery_info "USA" = .ok fallbackDeliveryInfo
    ∧ isDeliveryError (delivery_info "USA") = false := ⟨rfl, rfl⟩

/-- C7 (amended): for every region outside India and Canada,
`delivery_info` degrades gracefully: it returns the default fallback
delivery payload and never a hard `UnsupportedRegion` error. -/
theorem delivery_info_graceful (region : String)
    (h1 : region ≠ "India") (h2 : region ≠ "Canada") :
    delivery_info region = .ok fallbackDeliveryInfo
    ∧ isDeliveryError (delivery_info region) = false := by
  have h : delivery_info region = .ok fallbackDeliveryInfo := by
    unfold delivery_info
    rw [if_neg h1, if_neg h2]
  exact ⟨h, by simp [isDeliveryError, h]⟩

/-- Witness for C7 (amended): the unknown region "Mexico" receives the
fallback payload and no hard error. -/
theorem delivery_info_graceful_witness :
    (("Mexico" : String) ≠ "India" ∧ ("Mexico" : String) ≠ "Canada")
    ∧ (delivery_info "Mexico" = .ok fallbackDeliveryInfo
       ∧ isDeliveryError (delivery_info "Mexico") = false) :=
  ⟨⟨by decide, by decide⟩, delivery_info_graceful "Mexico" (by decide) (by decide)⟩

/-- Error taxonomy of the AuthSession Manager needed here. -/
inductive AuthError where
  | invalidToken
  | unauthorized
deriving DecidableEq

/-- Modelled from the spec: a decoded JWT of the AuthSession Manager
(backend `server.py`, absent from the source tree): `user_id`, issued-at,
expiry, the token-type discriminator, and the signature verification
outcome abstracted as a Boolean. -/
structure Token where
  user_id : String
  issued_at : ℕ
  exp : ℕ
  typ : String
  sigValid : Bool
deriving DecidableEq

/-- An access/refresh token pair. -/
structure TokenPair where
  access_token : Token
  refresh_token : Token
deriving DecidableEq

/-- Access-token lifetime (policy: 30 minutes), in seconds. -/
def accessTokenLifetime : ℕ := 30 * 60

/-- Refresh-token lifetime (policy: 7 days), in seconds. -/
def refreshTokenLifetime : ℕ := 7 * 24 * 60 * 60

/-- Modelled from the spec: issuing a fresh signed token pair for a user. -/
def issueTokenPair (uid : String) (now : ℕ) : TokenPair :=
  { access_token := { user_id := uid, issued_at := now,
                      exp := now + accessTokenLifetime, typ := "access",
                      sigValid := true },
    refresh_token := { user_id := uid, issued_at := now,
                       exp := now + refreshTokenLifetime, typ := "refresh",
                       sigValid := true } }

/-- Modelled from the spec: stateless token validation — signature,
expiry, and the type discriminator must all check out. -/
def validateToken (t : Token) (now : ℕ) (expectedType : String) : Bool :=
  t.sigValid && decide (now < t.exp) && (t.typ == expectedType)

/-- Modelled from the spec: `refresh` of the AuthSession Manager (backend
`server.py`, absent from the source tree): fails with `InvalidToken`
unless the presented token is a valid, unexpired refresh token; on
success rotates to a fresh pair for the same user. -/
def refresh (t : Token) (now : ℕ) : Except AuthError TokenPair :=
  if validateToken t now "refresh" then .ok (issueTokenPair t.user_id now)
  else .error .invalidToken

/-- Modelled from the spec: `authorize` of the AuthSession Manager
(backend `server.py`, absent from the source tree): guards protected
operations, accepting only valid, unexpired access tokens. -/
def authorize (t : Token) (now : ℕ) : Except AuthError String :=
  if validateToken t now "access" then .ok t.user_id
  else .error .unauthorized

/-- C8: the token-type discriminator is enforced: any token whose type is
not "refresh" — access tokens included, however valid and unexpired — is
rejected by `refresh` with `InvalidToken`, and any token whose type is
not "access" is rejected by `authorize`. -/
theorem token_type_discriminator (t : Token) (now : ℕ) :
    (t.typ ≠ "refresh" → refresh t now = .error .invalidToken)
    ∧ (t.typ ≠ "access" → authorize t now = .error .unauthorized) := by
  constructor
  · intro h
    have hb : (t.typ == "refresh") = false := beq_eq_false_iff_ne.mpr h
    have hv : validateToken t now "refresh" = false := by
      simp [validateToken, hb]
    simp [refresh, hv]
  · intro h
    have hb : (t.typ == "access") = false := beq_eq_false_iff_ne.mpr h
    have hv : validateToken t now "access" = false := by
      simp [validateToken, hb]
    simp [authorize, hv]

/-- Witness for C8: a freshly issued, signed, unexpired access token is
rejected by `refresh`, and the matching refresh token by `authorize`. -/
theorem token_type_discriminator_witness :
    ((issueTokenPair "u1" 0).access_token.typ ≠ "refresh"
      ∧ refresh (issueTokenPair "u1" 0).access_token 10 = .error .invalidToken)
    ∧ ((issueTokenPair "u1" 0).refresh_token.typ ≠ "access"
      ∧ authorize (issueTokenPair "u1" 0).refresh_token 10 = .error .unauthorized) :=
  ⟨⟨by decide, (token_type_discriminator (issueTokenPair "u1" 0).access_token 10).1
        (by decide)⟩,
   ⟨by decide, (token_type_discriminator (issueTokenPair "u1" 0).refresh_token 10).2
        (by decide)⟩⟩

/-- User record of the AuthSession Manager data model; the verification
and reset tokens carry their expiry timestamps. -/
structure User where
  id : String
  email : String
  password_hash : String
  region : String
  is_email_verified : Bool
  is_admin : Bool
  email_verification_token : Option (String × ℕ)
  password_reset_token : Option (String × ℕ)
deriving DecidableEq

/-- What a password-reset request produces: the HTTP-visible response
body, the updated user store, and the emitted notification log. -/
structure ResetOutcome where
  response : String
  users : List User
  notices : List String
deriving DecidableEq

/-- The success-shaped response body returned to every caller. -/
def resetResponseMessage : String :=
  "If an account with that email exists, a password reset link has been sent."

/-- Whether some stored user carries the given email. -/
def emailRegistered (users : List User) (email : String) : Bool :=
  users.any (fun u => u.email == email)

/-- Reset-token lifetime (policy: 1 hour), in seconds. -/
def resetTokenLifetime : ℕ := 60 * 60

/-- Modelled from the spec: `request_password_reset` of the AuthSession
Manager (backend `server.py`, absent from the source tree): always
answers with the same success-shaped response; only when the email is
registered does it additionally store a reset token (1 h expiry) and
emit a notification on the side channel. -/
def request_password_reset (users : List User) (email : String)
    (tok : String) (now : ℕ) : ResetOutcome :=
  if emailRegistered users email then
    { response := resetResponseMessage,
      users := users.map (fun u =>
        if u.email == email then
          { u with password_reset_token := some (tok, now + resetTokenLifetime) }
        else u),
      notices := ["password-reset-link sent to " ++ email] }
  else
    { response := resetResponseMessage, users := users, notices := [] }

/-- C9: the caller-visible response of `request_password_reset` is the
same success-shaped body whether the email is registered or not, so the
result observable to the requester never reveals account existence. -/
theorem request_password_reset_uniform (users : List User) (e1 e2 : String)
    (tok1 tok2 : String) (now1 now2 : ℕ)
    (h1 : emailRegistered users e1 = true) (h2 : emailRegistered users e2 = false) :
    (request_password_reset users e1 tok1 now1).response
      = (request_password_reset users e2 tok2 now2).response
    ∧ (request_password_reset users e1 tok1 now1).response = resetResponseMessage := by
  unfold request_password_reset
  constructor
  · split_ifs <;> rfl
  · split_ifs <;> rfl

/-- A registered user for the C9 witness. -/
def sampleUser : User :=
  { id := "u1", email := "a@b.com", password_hash := "hashed", region := "India",
    is_email_verified := false, is_admin := false,
    email_verification_token := none, password_reset_token := none }

/-- Witness for C9: with one stored user, a registered and an
unregistered email get identical response bodies. -/
theorem request_password_reset_uniform_witness :
    (emailRegistered [sampleUser] "a@b.com" = true
      ∧ emailRegistered [sampleUser] "x@y.com" = false)
    ∧ ((request_password_reset [sampleUser] "a@b.com" "t1" 0).response
        = (request_password_reset [sampleUser] "x@y.com" "t2" 5).response
      ∧ (request_password_reset [sampleUser] "a@b.com" "t1" 0).response
        = resetResponseMessage) :=
  ⟨⟨by decide, by decide⟩,
   request_password_reset_uniform [sampleUser] "a@b.com" "x@y.com" "t1" "t2" 0 5
     (by decide) (by decide)⟩
